import Mathlib

/-!
Verification of the PortaPack navigation stack (`ui_navigation.cpp`).

This file embeds the navigation-stack controller of
`src/firmware/application/ui_navigation.cpp` — class `NavigationView`
(`view_stack`, `modal_view`, the inherited widget child list `children_`)
together with the Shell/StatusBar coordination of `SystemView` and
`SystemStatusView` — as a state machine over explicit states, and proves
the spec's claims about it.

Modelling conventions:

* Heap-allocated `View` objects are identified by natural-number ids,
  allocated freshly from a counter (`next_id`); pointer equality in the
  C++ source becomes id equality and the null pointer becomes `none`.
  Each view carries its `title()` string.
* `view_stack` (a `std::vector<std::unique_ptr<View>>` in the source)
  is modelled as a `List ViewObj` with the TOP of the stack at the HEAD
  of the list: C++ `back()` is `List.head?`, `emplace_back` is `cons`,
  `pop_back` is `List.tail`, `size()` is `List.length`, and index 0 of
  the vector (the root) is the LAST element of the list.
* The widget child list `children_` is a `List Nat` of attached view
  ids, head = `children_[0]`.
* Side effects that matter to the claims (attach/detach of a child,
  destruction of an owned view, focus transfer, dirty marking, the
  `on_view_changed` notification) are recorded in an event trace
  returned next to the new state.
-/

/-- One heap-allocated `View` object: its identity (standing in for its
address) and its `title()`. -/
structure ViewObj where
  id : Nat
  title : String
deriving DecidableEq, Repr

/-- Observable side effects of a navigation operation, in program order. -/
inductive Event where
  /-- `add_child`: the view became attached to the display surface. -/
  | attach (id : Nat)
  /-- `remove_child`: the view was detached from the display surface. -/
  | detach (id : Nat)
  /-- `view_stack.pop_back()`: the owned view was destroyed. -/
  | destroy (id : Nat)
  /-- `focus()`: input focus was transferred to the view. -/
  | focused (id : Nat)
  /-- `set_dirty()`: the surface was marked for redraw. -/
  | dirty
  /-- `on_view_changed(*new_view)`: the "view changed" notification fired,
  carrying the new top view and (for the Shell handler) its title. -/
  | viewChanged (id : Nat) (title : String)
deriving DecidableEq, Repr

/-- The state of a `NavigationView`: the owned view stack, the attached
child list inherited from `Widget`, the weak modal reference
(`View* modal_view`, `none` = `nullptr`), and the fresh-id counter that
stands in for the allocator. -/
structure NavState where
  view_stack : List ViewObj
  children : List Nat
  modal_view : Option Nat
  next_id : Nat
deriving DecidableEq, Repr

namespace NavigationView

/-- `NavigationView::view`:
`return children_.empty() ? nullptr : children_[0];` -/
def view (s : NavState) : Option Nat :=
  s.children.head?

/-- `NavigationView::is_top`: `return view_stack.size() == 1;` -/
def is_top (s : NavState) : Bool :=
  s.view_stack.length == 1

/-- Modelled from the spec: `Widget::remove_child` (the widget base class
is outside this excerpt). Detaching removes the view from the parent's
child list; removing a null reference is a no-op ("detaches the current
top if one is attached", §4.1; View capability contract `detach()`, §6). -/
def remove_child (s : NavState) (w : Option Nat) : NavState × List Event :=
  match w with
  | none => (s, [])
  | some i => ({ s with children := s.children.filter (fun c => c != i) }, [Event.detach i])

/-- Modelled from the spec: `Widget::add_child` (outside this excerpt)
appends the view to the parent's child list and attaches it to the
display surface (View capability contract `attach(surface, bounds)`, §6). -/
def add_child (s : NavState) (i : Nat) : NavState × List Event :=
  ({ s with children := s.children ++ [i] }, [Event.attach i])

/-- `NavigationView::free_view`: `remove_child(view());` -/
def free_view (s : NavState) : NavState × List Event :=
  remove_child s (view s)

/-- `NavigationView::focus`: `if( view() ) { view()->focus(); }` -/
def focus (s : NavState) : NavState × List Event :=
  match view s with
  | none => (s, [])
  | some i => (s, [Event.focused i])

/-- `NavigationView::update_view`: attach `view_stack.back()` as the sole
child, give it full-surface bounds (geometry not modelled), transfer
focus, mark dirty, then fire `on_view_changed`. The source calls
`view_stack.back()` unconditionally (undefined behaviour on an empty
stack); every caller in the source guarantees a non-empty stack, and the
`none` branch below is never taken from those callers. -/
def update_view (s : NavState) : NavState × List Event :=
  match s.view_stack.head? with
  | none => (s, [])
  | some v =>
    let r1 := add_child s v.id
    let r2 := focus r1.1
    (r2.1, r1.2 ++ r2.2 ++ [Event.dirty, Event.viewChanged v.id v.title])

/-- `NavigationView::push_view`: `free_view(); const auto p = new_view.get();
view_stack.emplace_back(std::move(new_view)); update_view(); return p;`
The returned id models the returned non-owning `View*`. -/
def push_view (s : NavState) (v : ViewObj) : (NavState × List Event) × Nat :=
  let r1 := free_view s
  let s2 := { r1.1 with view_stack := v :: r1.1.view_stack }
  let r3 := update_view s2
  ((r3.1, r1.2 ++ r3.2), v.id)

/-- Modelled from the spec: the `push<T>(args...)` template wrapper (in
the header, outside this excerpt) constructs a fresh heap `View` and
hands ownership to `push_view` ("constructs a new View via the supplied
factory ... appends the new ViewHandle to `entries`", §4.1). The fresh
view gets the next unused id and the given title. -/
def push (s : NavState) (t : String) : (NavState × List Event) × Nat :=
  let v : ViewObj := { id := s.next_id, title := t }
  push_view { s with next_id := s.next_id + 1 } v

/-- `NavigationView::pop`: clear `modal_view` if the current view is the
modal (`if( view() == modal_view ) { modal_view = nullptr; }`), then, only
if `view_stack.size() > 1`: `free_view(); view_stack.pop_back();
update_view();`. `pop_back` destroys the owned top view. -/
def pop (s : NavState) : NavState × List Event :=
  let s0 := if view s = s.modal_view then { s with modal_view := none } else s
  if 1 < s0.view_stack.length then
    let r1 := free_view s0
    let destroyed := (r1.1.view_stack.head?).map (fun v => Event.destroy v.id)
    let s2 := { r1.1 with view_stack := r1.1.view_stack.tail }
    let r3 := update_view s2
    (r3.1, r1.2 ++ destroyed.toList ++ r3.2)
  else
    (s0, [])

set_option linter.unusedVariables false in
/-- `NavigationView::display_modal`: if a modal view is already visible,
do nothing; otherwise `modal_view = push<ModalMessageView>(title, message);`.
The `ModalMessageView` stores `title` as its `title()`; `message` only
affects text layout, which is not modelled. -/
def display_modal (s : NavState) (t msg : String) : NavState × List Event :=
  match s.modal_view with
  | some _ => (s, [])
  | none =>
    let r := push s t
    ({ r.1.1 with modal_view := some r.2 }, r.1.2)

end NavigationView

/-- The mutating operations a client can invoke on the stack. -/
inductive Op where
  | push (t : String)
  | pop
  | display_modal (t msg : String)
  | focus
deriving DecidableEq, Repr

/-- One operation applied to a state, with its event trace. -/
def step (s : NavState) : Op → NavState × List Event
  | Op.push t => (NavigationView.push s t).1
  | Op.pop => NavigationView.pop s
  | Op.display_modal t m => NavigationView.display_modal s t m
  | Op.focus => NavigationView.focus s

/-- Run a sequence of operations, keeping only the final state. -/
def run (s : NavState) (ops : List Op) : NavState :=
  ops.foldl (fun t op => (step t op).1) s

/-- The freshly constructed `NavigationView`: empty stack, no children,
`modal_view { nullptr }`, allocator counter at zero. -/
def initState : NavState :=
  { view_stack := [], children := [], modal_view := none, next_id := 0 }

/-- The state right after `SystemView`'s constructor seeds the stack with
one root view (`navigation_view.push<SystemMenuView>()`), for an arbitrary
root title `t`. -/
def seedState (t : String) : NavState :=
  ((NavigationView.push initState t).1).1

/-- States reachable by some operation sequence from a seeded stack. -/
def Reachable (s : NavState) : Prop :=
  ∃ t ops, run (seedState t) ops = s

/-- States reachable from the pre-seed empty state: the empty state itself
or any seeded-then-run state (the seeding push is itself an operation from
`initState`). -/
def Reachable0 (s : NavState) : Prop :=
  s = initState ∨ Reachable s

/-- The inductive invariant of a seeded navigation stack:
the stack is non-empty and the attached child list holds exactly the top
of the stack, and the modal reference (when set) points to a non-root
entry still on the stack. -/
def StackInv (s : NavState) : Prop :=
  (∃ v, s.view_stack.head? = some v ∧ s.children = [v.id]) ∧
  (∀ m, s.modal_view = some m → m ∈ s.view_stack.dropLast.map ViewObj.id)

/-- The StatusBar display state mirrored by the Shell: title text and
whether the back button is enabled/focusable. -/
structure StatusBarState where
  title : String
  back_enabled : Bool
deriving DecidableEq, Repr

/-- Modelled from the spec: the default title string shown when a view's
title is empty (§4.3; the concrete constant lives in the header, outside
this excerpt). -/
def default_title : String := "PortaPack"

/-- `SystemStatusView::set_back_enabled`: sets the back button's caption
and focusability; modelled as the boolean flag. -/
def set_back_enabled (st : StatusBarState) (b : Bool) : StatusBarState :=
  { st with back_enabled := b }

/-- `SystemStatusView::set_title`: `if( new_value.empty() ) {
title.set(default_title); } else { title.set(new_value); }` -/
def set_title (st : StatusBarState) (new_value : String) : StatusBarState :=
  if new_value.isEmpty then { st with title := default_title }
  else { st with title := new_value }

/-- `SystemView`'s `on_view_changed` handler:
`status_view.set_back_enabled(!navigation_view.is_top());
status_view.set_title(new_view.title());` applied to the StatusBar state,
given the navigation state and the new top view's title. -/
def on_view_changed_handler (nav : NavState) (st : StatusBarState)
    (new_title : String) : StatusBarState :=
  set_title (set_back_enabled st (!(NavigationView.is_top nav))) new_title

/-- A concrete example state: the seeded stack after one further push. -/
def exampleDepth2 : NavState :=
  run (seedState "M") [Op.push "A"]

/-- A concrete example state: the seeded stack right after a modal was
displayed. -/
def exampleModal : NavState :=
  (NavigationView.display_modal (seedState "M") "Error" "Disk full").1

/-! ## Characterization lemmas for the operations -/

namespace NavigationView

/-- `focus` never changes the state, only reports the focus transfer. -/
@[simp] lemma focus_fst (s : NavState) : (focus s).1 = s := by
  unfold focus
  split <;> rfl

/-- Full effect of `push` on a state whose child list holds exactly one
view id (the shape every reachable seeded state has). -/
lemma push_spec (s : NavState) (v : ViewObj) (t : String) (hc : s.children = [v.id]) :
    push s t =
      (({ view_stack := ⟨s.next_id, t⟩ :: s.view_stack, children := [s.next_id],
          modal_view := s.modal_view, next_id := s.next_id + 1 },
        [Event.detach v.id, Event.attach s.next_id, Event.focused s.next_id,
         Event.dirty, Event.viewChanged s.next_id t]),
       s.next_id) := by
  obtain ⟨stack, ch, mv, ni⟩ := s
  simp only at hc
  subst hc
  simp [push, push_view, free_view, remove_child, view, update_view, add_child, focus]

/-- Full effect of `push` on a state with no attached children (the
pre-seed state of the freshly constructed `NavigationView`). -/
lemma push_empty_spec (s : NavState) (t : String) (hc : s.children = []) :
    push s t =
      (({ view_stack := ⟨s.next_id, t⟩ :: s.view_stack, children := [s.next_id],
          modal_view := s.modal_view, next_id := s.next_id + 1 },
        [Event.attach s.next_id, Event.focused s.next_id, Event.dirty,
         Event.viewChanged s.next_id t]),
       s.next_id) := by
  obtain ⟨stack, ch, mv, ni⟩ := s
  simp only at hc
  subst hc
  simp [push, push_view, free_view, remove_child, view, update_view, add_child, focus]

/-- On any state whatsoever, `push` conses the fresh view onto the stack,
leaves the modal reference alone, bumps the allocator, and returns the
fresh view's id. -/
lemma push_fields (s : NavState) (t : String) :
    (push s t).1.1.view_stack = ⟨s.next_id, t⟩ :: s.view_stack ∧
    (push s t).1.1.modal_view = s.modal_view ∧
    (push s t).1.1.next_id = s.next_id + 1 ∧
    (push s t).2 = s.next_id := by
  obtain ⟨stack, ch, mv, ni⟩ := s
  cases ch <;>
    simp [push, push_view, free_view, remove_child, view, update_view, add_child]

/-- Full effect of `pop` on a reachable-shaped state of depth at least 2:
detach the top, destroy it, attach and focus the second entry, fire the
notification — and clear the modal reference first when the top was the
modal. -/
lemma pop_spec (s : NavState) (vtop v2 : ViewObj) (rest : List ViewObj)
    (hs : s.view_stack = vtop :: v2 :: rest) (hc : s.children = [vtop.id]) :
    pop s =
      ({ view_stack := v2 :: rest, children := [v2.id],
         modal_view := if some vtop.id = s.modal_view then none else s.modal_view,
         next_id := s.next_id },
       [Event.detach vtop.id, Event.destroy vtop.id, Event.attach v2.id,
        Event.focused v2.id, Event.dirty, Event.viewChanged v2.id v2.title]) := by
  obtain ⟨stack, ch, mv, ni⟩ := s
  simp only at hs hc ⊢
  subst hs
  subst hc
  by_cases h : (some vtop.id = mv)
  · subst h
    simp [pop, free_view, remove_child, view, update_view, add_child, focus,
      show (1 : Nat) < rest.length + 1 + 1 from by omega]
  · simp [pop, h, free_view, remove_child, view, update_view, add_child, focus,
      show (1 : Nat) < rest.length + 1 + 1 from by omega]

/-- `pop` on a stack of depth at most 1 only (possibly) clears the modal
reference: the stack, children and allocator are untouched and no event
fires. -/
lemma pop_noop (s : NavState) (hlen : ¬ 1 < s.view_stack.length) :
    pop s = (if view s = s.modal_view then { s with modal_view := none } else s, []) := by
  by_cases h : view s = s.modal_view <;> simp [pop, h, hlen]

/-- `display_modal` is a no-op when a modal reference is recorded. -/
lemma display_modal_some (s : NavState) (m : Nat) (t msg : String)
    (h : s.modal_view = some m) :
    display_modal s t msg = (s, []) := by
  simp [display_modal, h]

/-- `display_modal` with no modal recorded pushes a fresh view and records
it as the modal reference. -/
lemma display_modal_none (s : NavState) (t msg : String) (h : s.modal_view = none) :
    (display_modal s t msg).1 = { (push s t).1.1 with modal_view := some s.next_id } ∧
    (display_modal s t msg).1.view_stack = ⟨s.next_id, t⟩ :: s.view_stack := by
  constructor
  · simp [display_modal, h, (push_fields s t).2.2.2]
  · simp [display_modal, h, (push_fields s t).1]

/-- Detaching a child never touches the view stack. -/
@[simp] lemma remove_child_view_stack (s : NavState) (w : Option Nat) :
    (remove_child s w).1.view_stack = s.view_stack := by
  unfold remove_child
  cases w <;> rfl

/-- Detaching a child never touches the modal reference. -/
@[simp] lemma remove_child_modal (s : NavState) (w : Option Nat) :
    (remove_child s w).1.modal_view = s.modal_view := by
  unfold remove_child
  cases w <;> rfl

/-- `update_view` never touches the view stack. -/
@[simp] lemma update_view_view_stack (s : NavState) :
    (update_view s).1.view_stack = s.view_stack := by
  unfold update_view
  cases h : s.view_stack.head? <;> simp [h, add_child, focus_fst]

/-- `update_view` never touches the modal reference. -/
@[simp] lemma update_view_modal (s : NavState) :
    (update_view s).1.modal_view = s.modal_view := by
  unfold update_view
  cases h : s.view_stack.head? <;> simp [h, add_child, focus_fst]

/-- On any state, the modal reference after `pop` is exactly what the
initial `view() == modal_view` check leaves: cleared when the current view
was the modal, untouched otherwise — independently of the size check. -/
lemma pop_modal_view (s : NavState) :
    (pop s).1.modal_view = if view s = s.modal_view then none else s.modal_view := by
  by_cases h : view s = s.modal_view <;>
    by_cases hl : 1 < s.view_stack.length <;>
      simp [pop, h, hl, free_view]

/-- On any state, `pop` pops the top entry exactly when the size exceeds 1
and otherwise leaves the entry sequence unchanged. -/
lemma pop_view_stack (s : NavState) :
    (pop s).1.view_stack =
      if 1 < s.view_stack.length then s.view_stack.tail else s.view_stack := by
  by_cases h : view s = s.modal_view <;>
    by_cases hl : 1 < s.view_stack.length <;>
      simp [pop, h, hl, free_view]

end NavigationView

/-! ## The inductive invariant of seeded stacks -/

/-- A list with head `v` is `v` consed on its tail. -/
lemma head?_shape {α : Type _} {l : List α} {v : α} (h : l.head? = some v) :
    ∃ t, l = v :: t := by
  cases l with
  | nil => simp at h
  | cons a t =>
    simp only [List.head?_cons, Option.some.injEq] at h
    exact ⟨t, by rw [h]⟩

/-- The seeded state, computed. -/
lemma seedState_eq (t : String) :
    seedState t =
      { view_stack := [⟨0, t⟩], children := [0], modal_view := none, next_id := 1 } := by
  have h := NavigationView.push_empty_spec initState t rfl
  simp only [initState] at h
  simp [seedState, initState, h]

/-- The invariant holds right after seeding. -/
lemma stackInv_seed (t : String) : StackInv (seedState t) := by
  rw [seedState_eq]
  exact ⟨⟨⟨0, t⟩, rfl, rfl⟩, by intro m hm; simp at hm⟩

/-- Every operation preserves the invariant. -/
lemma stackInv_step (s : NavState) (op : Op) (h : StackInv s) : StackInv (step s op).1 := by
  obtain ⟨⟨v, hv, hc⟩, hm⟩ := h
  obtain ⟨stack', hstack⟩ := head?_shape hv
  have hne : s.view_stack ≠ [] := by rw [hstack]; exact List.cons_ne_nil _ _
  cases op with
  | push t =>
    show StackInv (NavigationView.push s t).1.1
    rw [NavigationView.push_spec s v t hc]
    refine ⟨⟨⟨s.next_id, t⟩, rfl, rfl⟩, ?_⟩
    intro m hmm
    have hmem := hm m hmm
    rw [List.dropLast_cons_of_ne_nil hne, List.map_cons]
    exact List.mem_cons_of_mem _ hmem
  | pop =>
    show StackInv (NavigationView.pop s).1
    cases stack' with
    | nil =>
      have hlen : ¬ 1 < s.view_stack.length := by rw [hstack]; simp
      rw [NavigationView.pop_noop s hlen]
      by_cases hmod : NavigationView.view s = s.modal_view
      · rw [if_pos hmod]
        refine ⟨⟨v, hv, hc⟩, ?_⟩
        intro m hmm
        simp at hmm
      · rw [if_neg hmod]
        refine ⟨⟨v, hv, hc⟩, ?_⟩
        intro m hmm
        have := hm m hmm
        rw [hstack] at this
        simp at this
    | cons v2 rest =>
      rw [NavigationView.pop_spec s v v2 rest hstack hc]
      refine ⟨⟨v2, rfl, rfl⟩, ?_⟩
      intro m hmm
      simp only at hmm
      split at hmm
      · exact absurd hmm (by simp)
      · rename_i hcond
        have hmem := hm m hmm
        rw [hstack, List.dropLast_cons₂, List.map_cons] at hmem
        rcases List.mem_cons.mp hmem with heq | hmem2
        · exact absurd (by rw [hmm, heq] : some v.id = s.modal_view) hcond
        · exact hmem2
  | display_modal t msg =>
    show StackInv (NavigationView.display_modal s t msg).1
    cases hmv : s.modal_view with
    | some m =>
      rw [NavigationView.display_modal_some s m t msg hmv]
      exact ⟨⟨v, hv, hc⟩, hm⟩
    | none =>
      simp only [NavigationView.display_modal, hmv, NavigationView.push_spec s v t hc]
      refine ⟨⟨⟨s.next_id, t⟩, rfl, rfl⟩, ?_⟩
      intro m hmm
      simp only [Option.some.injEq] at hmm
      rw [List.dropLast_cons_of_ne_nil hne, List.map_cons, hmm]
      exact List.mem_cons_self _ _
  | focus =>
    show StackInv (NavigationView.focus s).1
    rw [NavigationView.focus_fst]
    exact ⟨⟨v, hv, hc⟩, hm⟩

/-- The invariant is preserved along any run. -/
lemma stackInv_run (s : NavState) (h : StackInv s) (ops : List Op) : StackInv (run s ops) := by
  induction ops generalizing s with
  | nil => exact h
  | cons op rest ih => exact ih _ (stackInv_step s op h)

/-- Every reachable state satisfies the invariant. -/
lemma stackInv_reachable (s : NavState) (h : Reachable s) : StackInv s := by
  obtain ⟨t, ops, hrun⟩ := h
  rw [← hrun]
  exact stackInv_run _ (stackInv_seed t) ops

/-! ## The claims -/

/-- C1: starting from a stack seeded with one root entry, after any
sequence of operations the entry sequence is never empty
(`view_stack.size() >= 1`), and calling `pop` when the size is 1 leaves
the entry sequence unchanged — the root is never popped. -/
theorem C1_root_never_popped (s : NavState) (h : Reachable s) :
    1 ≤ s.view_stack.length ∧
      (s.view_stack.length = 1 →
        ((NavigationView.pop s).1).view_stack = s.view_stack) := by
  obtain ⟨⟨v, hv, hc⟩, hm⟩ := stackInv_reachable s h
  obtain ⟨stack', hstack⟩ := head?_shape hv
  constructor
  · rw [hstack, List.length_cons]
    omega
  · intro hlen
    rw [NavigationView.pop_view_stack, if_neg (by omega)]

/-- Concrete instance of C1, at the freshly seeded stack. -/
theorem C1_root_never_popped_witness :
    1 ≤ (seedState "M").view_stack.length ∧
      ((seedState "M").view_stack.length = 1 →
        ((NavigationView.pop (seedState "M")).1).view_stack =
          (seedState "M").view_stack) :=
  C1_root_never_popped (seedState "M") ⟨"M", [], rfl⟩

/-- C2: after any push (from the pre-seed state or any reachable state),
the newly pushed view is the one `view()` (`currentView()`) returns, it is
the sole attached child, it is the new top of the entry sequence, and
`push` returns the non-owning pointer (id) of that same newly pushed
view. -/
theorem C2_push_sole_top (s : NavState) (h : Reachable0 s) (t : String) :
    (NavigationView.push s t).2 = s.next_id ∧
    (NavigationView.push s t).1.1.children = [s.next_id] ∧
    NavigationView.view (NavigationView.push s t).1.1 = some s.next_id ∧
    (NavigationView.push s t).1.1.view_stack.head? = some ⟨s.next_id, t⟩ := by
  rcases h with rfl | hr
  · rw [NavigationView.push_empty_spec initState t rfl]
    exact ⟨rfl, rfl, rfl, rfl⟩
  · obtain ⟨⟨v, hv, hc⟩, -⟩ := stackInv_reachable s hr
    rw [NavigationView.push_spec s v t hc]
    exact ⟨rfl, rfl, rfl, rfl⟩

/-- Concrete instance of C2, at the pre-seed state. -/
theorem C2_push_sole_top_witness :
    (NavigationView.push initState "M").2 = initState.next_id ∧
    (NavigationView.push initState "M").1.1.children = [initState.next_id] ∧
    NavigationView.view (NavigationView.push initState "M").1.1 =
      some initState.next_id ∧
    (NavigationView.push initState "M").1.1.view_stack.head? =
      some ⟨initState.next_id, "M"⟩ :=
  C2_push_sole_top initState (Or.inl rfl) "M"

/-- C3: on any reachable state of depth above 1, `pop` detaches the top
from the surface and then destroys it — detach strictly before destroy,
each exactly once, as the recorded trace shows — removes it from the entry
sequence, and the previously second-from-top entry becomes the current
view. -/
theorem C3_pop_detach_then_destroy (s : NavState) (h : Reachable s)
    (hlen : 1 < s.view_stack.length) :
    ∃ vtop v2 rest, s.view_stack = vtop :: v2 :: rest ∧
      NavigationView.pop s =
        ({ view_stack := v2 :: rest, children := [v2.id],
           modal_view := if some vtop.id = s.modal_view then none else s.modal_view,
           next_id := s.next_id },
         [Event.detach vtop.id, Event.destroy vtop.id, Event.attach v2.id,
          Event.focused v2.id, Event.dirty, Event.viewChanged v2.id v2.title]) ∧
      NavigationView.view (NavigationView.pop s).1 = some v2.id := by
  obtain ⟨⟨v, hv, hc⟩, -⟩ := stackInv_reachable s h
  obtain ⟨stack', hstack⟩ := head?_shape hv
  cases stack' with
  | nil =>
    rw [hstack] at hlen
    simp at hlen
  | cons v2 rest =>
    refine ⟨v, v2, rest, hstack, NavigationView.pop_spec s v v2 rest hstack hc, ?_⟩
    rw [NavigationView.pop_spec s v v2 rest hstack hc]
    rfl

/-- Concrete instance of C3, at depth 2. -/
theorem C3_pop_detach_then_destroy_witness :
    ∃ vtop v2 rest, exampleDepth2.view_stack = vtop :: v2 :: rest ∧
      NavigationView.pop exampleDepth2 =
        ({ view_stack := v2 :: rest, children := [v2.id],
           modal_view := if some vtop.id = exampleDepth2.modal_view then none
             else exampleDepth2.modal_view,
           next_id := exampleDepth2.next_id },
         [Event.detach vtop.id, Event.destroy vtop.id, Event.attach v2.id,
          Event.focused v2.id, Event.dirty, Event.viewChanged v2.id v2.title]) ∧
      NavigationView.view (NavigationView.pop exampleDepth2).1 = some v2.id :=
  C3_pop_detach_then_destroy exampleDepth2 ⟨"M", [Op.push "A"], rfl⟩ (by decide)

/-- C4: `display_modal` is a no-op when a modal reference is already
recorded; from a modal-free state the first call records the pushed modal
dialog as the modal reference and puts it on top, and a second call with
no intervening pop changes nothing, so the two successive calls add
exactly one stack entry. -/
theorem C4_display_modal_idempotent (s : NavState) (t1 m1 t2 m2 : String) :
    (∀ m, s.modal_view = some m →
      NavigationView.display_modal s t1 m1 = (s, [])) ∧
    (s.modal_view = none →
      (NavigationView.display_modal s t1 m1).1.modal_view = some s.next_id ∧
      (NavigationView.display_modal s t1 m1).1.view_stack.head? =
        some ⟨s.next_id, t1⟩ ∧
      NavigationView.display_modal (NavigationView.display_modal s t1 m1).1 t2 m2 =
        ((NavigationView.display_modal s t1 m1).1, []) ∧
      (NavigationView.display_modal
          (NavigationView.display_modal s t1 m1).1 t2 m2).1.view_stack.length =
        s.view_stack.length + 1) := by
  constructor
  · intro m hm
    exact NavigationView.display_modal_some s m t1 m1 hm
  · intro hnone
    obtain ⟨hstate, hstack⟩ := NavigationView.display_modal_none s t1 m1 hnone
    have hmodal : (NavigationView.display_modal s t1 m1).1.modal_view =
        some s.next_id := by
      rw [hstate]
    have hsecond :=
      NavigationView.display_modal_some ((NavigationView.display_modal s t1 m1).1)
        s.next_id t2 m2 hmodal
    refine ⟨hmodal, by rw [hstack]; rfl, hsecond, ?_⟩
    rw [hsecond, hstack]
    rfl

/-- Concrete instance of C4: the suppressed second call on a state with a
modal up, and the full scenario from the freshly seeded stack. -/
theorem C4_display_modal_idempotent_witness :
    NavigationView.display_modal exampleModal "E2" "M2" = (exampleModal, []) ∧
    ((NavigationView.display_modal (seedState "M") "Error" "Disk full").1.modal_view =
        some (seedState "M").next_id ∧
      (NavigationView.display_modal (seedState "M") "Error"
          "Disk full").1.view_stack.head? =
        some ⟨(seedState "M").next_id, "Error"⟩ ∧
      NavigationView.display_modal
          (NavigationView.display_modal (seedState "M") "Error" "Disk full").1 "E2"
          "M2" =
        ((NavigationView.display_modal (seedState "M") "Error" "Disk full").1, []) ∧
      (NavigationView.display_modal
          (NavigationView.display_modal (seedState "M") "Error" "Disk full").1 "E2"
          "M2").1.view_stack.length =
        (seedState "M").view_stack.length + 1) :=
  ⟨(C4_display_modal_idempotent exampleModal "E2" "M2" "X" "Y").1 1 rfl,
   (C4_display_modal_idempotent (seedState "M") "Error" "Disk full" "E2" "M2").2 rfl⟩

/-- C5: when the current top is the recorded modal, `pop` clears the modal
reference — the clearing happens before the size check, so it needs no
size hypothesis — and a subsequent `display_modal` is not suppressed: it
adds a stack entry again. -/
theorem C5_modal_dismiss_reenables (s : NavState) (m : Nat)
    (hm : s.modal_view = some m) (hv : NavigationView.view s = some m)
    (t msg : String) :
    (NavigationView.pop s).1.modal_view = none ∧
    (NavigationView.display_modal (NavigationView.pop s).1 t msg).1.view_stack.length =
      (NavigationView.pop s).1.view_stack.length + 1 := by
  have hcond : NavigationView.view s = s.modal_view := by rw [hv, hm]
  have h1 : (NavigationView.pop s).1.modal_view = none := by
    rw [NavigationView.pop_modal_view, if_pos hcond]
  obtain ⟨-, hstack⟩ :=
    NavigationView.display_modal_none ((NavigationView.pop s).1) t msg h1
  refine ⟨h1, ?_⟩
  rw [hstack]
  rfl

/-- Concrete instance of C5: dismissing the modal of `exampleModal`. -/
theorem C5_modal_dismiss_reenables_witness :
    (NavigationView.pop exampleModal).1.modal_view = none ∧
    (NavigationView.display_modal (NavigationView.pop exampleModal).1 "Error"
        "Disk full").1.view_stack.length =
      (NavigationView.pop exampleModal).1.view_stack.length + 1 :=
  C5_modal_dismiss_reenables exampleModal 1 rfl rfl "Error" "Disk full"

/-- C6: in every reachable state exactly one view is attached — the child
list is exactly the top of the entry sequence — and `view()`
(`currentView()`) returns it; on any state with an empty child list,
`view()` returns null. -/
theorem C6_single_attached_view (s : NavState) (h : Reachable s) :
    (∃ v, s.view_stack.head? = some v ∧ s.children = [v.id] ∧
      NavigationView.view s = some v.id) ∧
    (∀ s2 : NavState, s2.children = [] → NavigationView.view s2 = none) := by
  obtain ⟨⟨v, hv, hc⟩, -⟩ := stackInv_reachable s h
  refine ⟨⟨v, hv, hc, ?_⟩, ?_⟩
  · simp [NavigationView.view, hc]
  · intro s2 h2
    simp [NavigationView.view, h2]

/-- Concrete instance of C6, at the freshly seeded stack. -/
theorem C6_single_attached_view_witness :
    (∃ v, (seedState "M").view_stack.head? = some v ∧
      (seedState "M").children = [v.id] ∧
      NavigationView.view (seedState "M") = some v.id) ∧
    (∀ s2 : NavState, s2.children = [] → NavigationView.view s2 = none) :=
  C6_single_attached_view (seedState "M") ⟨"M", [], rfl⟩

/-- C7: the "view changed" notification fires last. For any push from the
pre-seed state or a reachable state, the trace ends with the attach,
focus, dirty and view-changed events of the new top, in that order; for
any pop that changes the top the trace is exactly detach, destroy, attach,
focus, dirty, view-changed; and in both cases, when the notification
fires, the child list holds exactly the new top — an observer invoked by
the notification never sees zero or two attached views. -/
theorem C7_notification_fires_last (s : NavState) (h : Reachable0 s) (t : String) :
    (∃ pre, (NavigationView.push s t).1.2 =
        pre ++ [Event.attach s.next_id, Event.focused s.next_id, Event.dirty,
          Event.viewChanged s.next_id t] ∧
      (NavigationView.push s t).1.1.children = [s.next_id]) ∧
    (1 < s.view_stack.length → ∃ vtop v2,
      s.view_stack.head? = some vtop ∧ s.view_stack.tail.head? = some v2 ∧
      (NavigationView.pop s).2 =
        [Event.detach vtop.id, Event.destroy vtop.id, Event.attach v2.id,
         Event.focused v2.id, Event.dirty, Event.viewChanged v2.id v2.title] ∧
      (NavigationView.pop s).1.children = [v2.id]) := by
  rcases h with rfl | hr
  · constructor
    · rw [NavigationView.push_empty_spec initState t rfl]
      exact ⟨[], rfl, rfl⟩
    · intro hlen
      simp [initState] at hlen
  · obtain ⟨⟨v, hv, hc⟩, -⟩ := stackInv_reachable s hr
    obtain ⟨stack', hstack⟩ := head?_shape hv
    constructor
    · rw [NavigationView.push_spec s v t hc]
      exact ⟨[Event.detach v.id], rfl, rfl⟩
    · intro hlen
      cases stack' with
      | nil =>
        rw [hstack] at hlen
        simp at hlen
      | cons v2 rest =>
        refine ⟨v, v2, hv, ?_, ?_, ?_⟩
        · rw [hstack]
          rfl
        · rw [NavigationView.pop_spec s v v2 rest hstack hc]
        · rw [NavigationView.pop_spec s v v2 rest hstack hc]

/-- Concrete instance of C7, at depth 2 where both a push and a
top-changing pop are possible. -/
theorem C7_notification_fires_last_witness :
    (∃ pre, (NavigationView.push exampleDepth2 "X").1.2 =
        pre ++ [Event.attach exampleDepth2.next_id,
          Event.focused exampleDepth2.next_id, Event.dirty,
          Event.viewChanged exampleDepth2.next_id "X"] ∧
      (NavigationView.push exampleDepth2 "X").1.1.children =
        [exampleDepth2.next_id]) ∧
    (∃ vtop v2,
      exampleDepth2.view_stack.head? = some vtop ∧
      exampleDepth2.view_stack.tail.head? = some v2 ∧
      (NavigationView.pop exampleDepth2).2 =
        [Event.detach vtop.id, Event.destroy vtop.id, Event.attach v2.id,
         Event.focused v2.id, Event.dirty, Event.viewChanged v2.id v2.title] ∧
      (NavigationView.pop exampleDepth2).1.children = [v2.id]) :=
  ⟨(C7_notification_fires_last exampleDepth2
      (Or.inr ⟨"M", [Op.push "A"], rfl⟩) "X").1,
   (C7_notification_fires_last exampleDepth2
      (Or.inr ⟨"M", [Op.push "A"], rfl⟩) "X").2 (by decide)⟩

/-- C8: on each firing of the "view changed" event, the Shell handler sets
the StatusBar back-enabled flag to the negation of `is_top()` (which is
`view_stack.size() == 1`) and the StatusBar title to the new top view
title, falling back to the default title string when that title is
empty. -/
theorem C8_shell_statusbar_mirror (nav : NavState) (st : StatusBarState)
    (nt : String) :
    (on_view_changed_handler nav st nt).back_enabled =
      !(nav.view_stack.length == 1) ∧
    (on_view_changed_handler nav st nt).title =
      (if nt = "" then default_title else nt) := by
  constructor
  · by_cases h : nt.isEmpty <;>
      simp [on_view_changed_handler, set_title, set_back_enabled,
        NavigationView.is_top, h]
  · by_cases h : nt.isEmpty
    · rw [show nt = "" from (String.isEmpty_iff nt).mp h]
      simp [on_view_changed_handler, set_title, set_back_enabled]
      rfl
    · have h2 : ¬ nt = "" := fun heq => h ((String.isEmpty_iff nt).mpr heq)
      simp [on_view_changed_handler, set_title, set_back_enabled, h, h2]

/-- C9: the operations are total functions of the state (they are plain
functions in this model, with no error channel), and on the pre-seed
empty state `view()` (`currentView()`) returns null, `focus()` is a no-op
producing no events, and `pop` fires no event and leaves the entry
sequence unchanged. -/
theorem C9_total_on_empty (s : NavState) (hstack : s.view_stack = [])
    (hch : s.children = []) :
    NavigationView.view s = none ∧
    NavigationView.focus s = (s, []) ∧
    NavigationView.pop s =
      (if NavigationView.view s = s.modal_view then { s with modal_view := none }
       else s, []) ∧
    (NavigationView.pop s).1.view_stack = s.view_stack := by
  have hview : NavigationView.view s = none := by simp [NavigationView.view, hch]
  refine ⟨hview, ?_, ?_, ?_⟩
  · unfold NavigationView.focus
    rw [hview]
  · exact NavigationView.pop_noop s (by rw [hstack]; simp)
  · rw [NavigationView.pop_view_stack, if_neg (by rw [hstack]; simp)]

/-- Concrete instance of C9, at the pre-seed state. -/
theorem C9_total_on_empty_witness :
    NavigationView.view initState = none ∧
    NavigationView.focus initState = (initState, []) ∧
    NavigationView.pop initState =
      (if NavigationView.view initState = initState.modal_view then
        { initState with modal_view := none }
       else initState, []) ∧
    (NavigationView.pop initState).1.view_stack = initState.view_stack :=
  C9_total_on_empty initState rfl rfl

/-- C10: in every reachable state the modal reference, when set, refers to
an entry still present in the entry sequence — in fact a non-root entry —
so it never dangles; consequently in the root state (size 1) the modal
reference is null. -/
theorem C10_modal_ref_on_stack (s : NavState) (h : Reachable s) :
    (∀ m, s.modal_view = some m →
      m ∈ s.view_stack.map ViewObj.id ∧
      m ∈ s.view_stack.dropLast.map ViewObj.id) ∧
    (s.view_stack.length = 1 → s.modal_view = none) := by
  obtain ⟨⟨v, hv, hc⟩, hm⟩ := stackInv_reachable s h
  constructor
  · intro m hmm
    have h2 := hm m hmm
    exact ⟨((List.dropLast_sublist s.view_stack).map ViewObj.id).subset h2, h2⟩
  · intro hlen
    cases hmv : s.modal_view with
    | none => rfl
    | some m =>
      have h2 := hm m hmv
      obtain ⟨stack', hstack⟩ := head?_shape hv
      cases stack' with
      | nil =>
        rw [hstack] at h2
        simp at h2
      | cons a l =>
        rw [hstack] at hlen
        simp [List.length_cons] at hlen

/-- Concrete instance of C10, at a reachable state with the modal set. -/
theorem C10_modal_ref_on_stack_witness :
    (∀ m, exampleModal.modal_view = some m →
      m ∈ exampleModal.view_stack.map ViewObj.id ∧
      m ∈ exampleModal.view_stack.dropLast.map ViewObj.id) ∧
    (exampleModal.view_stack.length = 1 → exampleModal.modal_view = none) :=
  C10_modal_ref_on_stack exampleModal
    ⟨"M", [Op.display_modal "Error" "Disk full"], rfl⟩
